import Mathlib

/-!
Shallow embedding of `src/trunk/src/ZEO/zrpc/trigger.py`.

The file defines two platform-conditional `trigger` classes (a posix pipe
variant and a win32 loopback-socket variant).  Both share the same
`pull_trigger`/`handle_read` bodies up to the OS primitive used for the
one-byte wakeup write (`os.write(self.trigger, 'x')` vs
`self.trigger.send('x')`) and for the drain read (`self.recv(8192)` over a
pipe fd vs over a socket), so one embedding of the queue/lock/drain logic
covers both; where the variants genuinely differ (the `close` method, the
loopback bind loop, the exception class raised by the underlying read) the
embedding keeps them apart.
-/

namespace ZRPC

/-- Embedding of a Python thunk as the trigger sees it: `ident` distinguishes
thunks, `raises` says whether calling it raises (caught by the bare
`except:` in `handle_read`), and `truthy` is its Python truth value (tested
by `if thunk:` in `pull_trigger`; plain functions are truthy, but a callable
object may define a false truth value). -/
structure PyThunk where
  ident : Nat
  raises : Bool
  truthy : Bool
deriving DecidableEq

/-- Observable events of a trigger method, in program order: the drain
read (`self.recv(8192)`), lock acquire/release, appending a thunk, calling
a thunk (`thunk()`), the diagnostic print of the `except:` arm, the
`self.thunks = []` reset, and the one-byte wakeup write. -/
inductive Ev where
  | recvBytes
  | acquire
  | release
  | append (t : PyThunk)
  | invoke (t : PyThunk)
  | report (t : PyThunk)
  | clearQueue
  | writeByte
deriving DecidableEq

/-- Mutable state of a trigger shared between `pull_trigger` and
`handle_read`: `self.thunks` and the number of wakeup bytes sitting unread
in the pipe/socket channel. -/
structure TriggerState where
  thunks : List PyThunk
  pendingBytes : Nat
deriving DecidableEq

/-- State right after `__init__`: `self.thunks = []`, channel empty. -/
def initState : TriggerState := { thunks := [], pendingBytes := 0 }

/-- Python truthiness of the optional `thunk` argument, as tested by
`if thunk:`: `None` is false, otherwise the argument's own truth value. -/
def pyTruthy : Option PyThunk → Bool
  | none => false
  | some t => t.truthy

/-- Embedding of `trigger.pull_trigger` (both variants have this body):

    def pull_trigger(self, thunk=None):
        if thunk:
            self.lock.acquire()
            try:
                self.thunks.append(thunk)
            finally:
                self.lock.release()
        os.write(self.trigger, 'x')      # loopback: self.trigger.send('x')

Returns the new state and the event trace.  The wakeup write is one byte in
both variants. -/
def pull_trigger (s : TriggerState) (thunk : Option PyThunk) :
    TriggerState × List Ev :=
  if pyTruthy thunk then
    ({ thunks := s.thunks ++ thunk.toList, pendingBytes := s.pendingBytes + 1 },
     [Ev.acquire] ++ thunk.toList.map Ev.append ++ [Ev.release, Ev.writeByte])
  else
    ({ s with pendingBytes := s.pendingBytes + 1 }, [Ev.writeByte])

/-- Iterated `pull_trigger` with a (truthy or not) thunk each time; the
sequence of appends issued by producers before a drain. -/
def pullMany (s : TriggerState) (ts : List PyThunk) : TriggerState :=
  ts.foldl (fun acc t => (pull_trigger acc (some t)).1) s

/-- Exception classes that the underlying channel read can raise.
`socketError` is Python's `socket.error`, the class named by the
`except socket.error:` clause of `handle_read`; `osError` is `OSError`,
the class raised by `os.read` — the pipe variant's `self.recv` goes through
`asyncore.file_wrapper.recv`, which is `os.read` on the pipe fd, so a pipe
read that fails (e.g. fd already closed) raises `OSError`, a class that is
not a subclass of `socket.error` in Python 2. -/
inductive Exc where
  | socketError
  | osError
deriving DecidableEq

/-- Outcome of the `self.recv(8192)` call attempted at the top of
`handle_read`: either it returns (reading up to 8192 of the pending bytes),
or it raises one of the exception classes above. -/
inductive RecvOutcome where
  | ok
  | fails (e : Exc)
deriving DecidableEq

/-- Events of one iteration of the drain loop body

        try:
            thunk()
        except:
            ...compact_traceback(); print(...)

the call, followed by the diagnostic print when the thunk raises. -/
def runThunk (t : PyThunk) : List Ev :=
  if t.raises then [Ev.invoke t, Ev.report t] else [Ev.invoke t]

/-- Embedding of `trigger.handle_read` (both variants have this body):

    def handle_read(self):
        try:
            self.recv(8192)
        except socket.error:
            return
        self.lock.acquire()
        try:
            for thunk in self.thunks:
                try:
                    thunk()
                except:
                    nil, t, v, tbinfo = asyncore.compact_traceback()
                    print ('exception in trigger thunk: ...')
            self.thunks = []
        finally:
            self.lock.release()

Result: the exception that escapes the method (if any), the state on exit,
and the event trace.  The `except socket.error:` clause catches exactly
`socket.error`; any other exception class propagates to the caller with the
state untouched.  A successful `recv(8192)` consumes `min pending 8192`
bytes of the channel. -/
def handle_read (s : TriggerState) (r : RecvOutcome) :
    Option Exc × TriggerState × List Ev :=
  match r with
  | RecvOutcome.fails e =>
      if e = Exc.socketError then (none, s, [Ev.recvBytes])
      else (some e, s, [Ev.recvBytes])
  | RecvOutcome.ok =>
      (none,
       { thunks := [],
         pendingBytes := s.pendingBytes - min s.pendingBytes 8192 },
       [Ev.recvBytes, Ev.acquire] ++ (s.thunks.map runThunk).flatten
         ++ [Ev.clearQueue, Ev.release])

/-- Thunks called by a trace, in call order. -/
def invoked (evs : List Ev) : List PyThunk :=
  evs.filterMap fun e =>
    match e with
    | Ev.invoke t => some t
    | _ => none

/-- Thunks whose failure the trace reports to the diagnostic sink. -/
def reported (evs : List Ev) : List PyThunk :=
  evs.filterMap fun e =>
    match e with
    | Ev.report t => some t
    | _ => none

/-- Scan of a trace tracking whether `self.lock` is held, answering whether
some event satisfying `p` happens while the lock is held.  The lock is free
at the `acquire` event itself and held at the `release` event itself. -/
def anyHeld (p : Ev → Bool) : List Ev → Bool → Bool
  | [], _ => false
  | e :: rest, held =>
      (p e && held) ||
        anyHeld p rest
          (match e with
           | Ev.acquire => true
           | Ev.release => false
           | _ => held)

def isInvoke : Ev → Bool
  | Ev.invoke _ => true
  | _ => false

def isAppend : Ev → Bool
  | Ev.append _ => true
  | _ => false

def isOsIO : Ev → Bool
  | Ev.recvBytes => true
  | Ev.writeByte => true
  | _ => false

/-- True when the trace calls some thunk while holding the lock. -/
def invokeWhileLocked (evs : List Ev) : Bool :=
  anyHeld isInvoke evs false

/-- True when the trace appends some thunk while holding the lock. -/
def appendWhileLocked (evs : List Ev) : Bool :=
  anyHeld isAppend evs false

/-- True when the trace does an OS read or write while holding the lock. -/
def osIOWhileLocked (evs : List Ev) : Bool :=
  anyHeld isOsIO evs false

/-- Number of wakeup bytes a trace writes. -/
def bytesWritten (evs : List Ev) : Nat :=
  evs.countP fun e =>
    match e with
    | Ev.writeByte => true
    | _ => false

/-- Close-relevant state of the posix (pipe) trigger: the `_closed` flag,
the fd list `self._fds = [r, w]`, and whether the dispatcher is still in
the asyncore channel map (`del_channel` removes it). -/
structure PipeTriggerRes where
  closed : Bool
  fds : List Nat
  registered : Bool
deriving DecidableEq

/-- Pipe trigger right after `__init__`: `r, w = self._fds = os.pipe()`,
`self._closed = 0`, registered with the loop. -/
def pipeInit (r w : Nat) : PipeTriggerRes :=
  { closed := false, fds := [r, w], registered := true }

/-- Embedding of the posix trigger's own `close`:

    def close(self):
        if not self._closed:
            self._closed = 1
            self.del_channel()
            for fd in self._fds:
                os.close(fd)
            self._fds = []

Returns the new state and the list of fds passed to `os.close`. -/
def pipe_close (s : PipeTriggerRes) : PipeTriggerRes × List Nat :=
  if s.closed then (s, [])
  else ({ closed := true, fds := [], registered := false }, s.fds)

/-- Close-relevant state of the loopback (win32) trigger: whether the
dispatcher's own socket `r` is closed, whether the write-end socket
`self.trigger` (`w`) is closed, and channel-map membership. -/
structure LoopbackTriggerRes where
  rClosed : Bool
  wClosed : Bool
  registered : Bool
deriving DecidableEq

/-- Loopback trigger right after `__init__`: both sockets open. -/
def loopbackInit : LoopbackTriggerRes :=
  { rClosed := false, wClosed := false, registered := true }

/-- Close of the loopback trigger.  The class defines no `close` method
(and no `_closed` flag), so the call resolves to the inherited
`asyncore.dispatcher.close`, which is `self.del_channel(); self.socket.close()`:
it unregisters the dispatcher and closes only the dispatcher's own socket —
the `r` end passed to `asyncore.dispatcher.__init__(self, r)`.  The
write-end socket `self.trigger` is not touched. -/
def loopback_close (s : LoopbackTriggerRes) : LoopbackTriggerRes :=
  { s with rClosed := true, registered := false }

/-- Loopback port-range constants:  `MINPORT = 19950`, `NPORTS = 50`. -/
def MINPORT : Nat := 19950

def NPORTS : Nat := 50

/-- Embedding of the bind loop of the loopback `__init__`:

    for i in range(NPORTS):
        trigger.portoffset = (trigger.portoffset + 1) % NPORTS
        port = MINPORT + trigger.portoffset
        address = (HOST, port)
        try:
            a.bind(address)
        except socket.error:
            continue
        else:
            break
    else:
        raise RuntimeError, 'Cannot bind trigger!'

`taken p` says binding port `p` raises `socket.error`; `fuel` counts the
iterations left in `range(NPORTS)`.  `none` is the for-else
`RuntimeError('Cannot bind trigger!')`; `some (off, port)` is a successful
bind, with the class attribute `trigger.portoffset` left at `off`. -/
def bindLoop (taken : Nat → Bool) : Nat → Nat → Option (Nat × Nat)
  | _, 0 => none
  | offset, fuel + 1 =>
      let offset2 := (offset + 1) % NPORTS
      let port := MINPORT + offset2
      if taken port then bindLoop taken offset2 fuel
      else some (offset2, port)

/-- The whole bind phase: the loop starting from the current class
attribute `trigger.portoffset`, with all `NPORTS` iterations available. -/
def loopback_bind (taken : Nat → Bool) (portoffset : Nat) :
    Option (Nat × Nat) :=
  bindLoop taken portoffset NPORTS

/-! Helper lemmas about the drain trace and the lock scan. -/

theorem invoked_append (a b : List Ev) :
    invoked (a ++ b) = invoked a ++ invoked b := by
  simp [invoked, List.filterMap_append]

theorem reported_append (a b : List Ev) :
    reported (a ++ b) = reported a ++ reported b := by
  simp [reported, List.filterMap_append]

theorem invoked_runThunk (t : PyThunk) : invoked (runThunk t) = [t] := by
  cases h : t.raises <;> simp [runThunk, h, invoked]

theorem reported_runThunk (t : PyThunk) :
    reported (runThunk t) = if t.raises then [t] else [] := by
  cases h : t.raises <;> simp [runThunk, h, reported]

theorem invoked_drain_body (ts : List PyThunk) :
    invoked ((ts.map runThunk).flatten) = ts := by
  induction ts with
  | nil => rfl
  | cons t ts ih =>
      simp only [List.map_cons, List.flatten_cons, invoked_append,
        invoked_runThunk, ih, List.singleton_append]

theorem reported_drain_body (ts : List PyThunk) :
    reported ((ts.map runThunk).flatten) = ts.filter fun t => t.raises := by
  induction ts with
  | nil => rfl
  | cons t ts ih =>
      simp only [List.map_cons, List.flatten_cons, reported_append,
        reported_runThunk, ih, List.filter_cons]
      cases h : t.raises <;> simp [h]

theorem drain_trace (s : TriggerState) :
    (handle_read s RecvOutcome.ok).2.2
      = [Ev.recvBytes, Ev.acquire] ++ (s.thunks.map runThunk).flatten
          ++ [Ev.clearQueue, Ev.release] := rfl

theorem drain_invoked (s : TriggerState) :
    invoked (handle_read s RecvOutcome.ok).2.2 = s.thunks := by
  rw [drain_trace, invoked_append, invoked_append, invoked_drain_body]
  simp [invoked]

theorem drain_reported (s : TriggerState) :
    reported (handle_read s RecvOutcome.ok).2.2
      = s.thunks.filter fun t => t.raises := by
  rw [drain_trace, reported_append, reported_append, reported_drain_body]
  simp [reported]

theorem drain_no_exc (s : TriggerState) :
    (handle_read s RecvOutcome.ok).1 = none := rfl

theorem drain_empties_queue (s : TriggerState) :
    (handle_read s RecvOutcome.ok).2.1.thunks = [] := rfl

theorem anyHeld_of_not_matching (p : Ev → Bool) :
    ∀ (evs : List Ev) (held : Bool),
      (∀ e ∈ evs, p e = false) → anyHeld p evs held = false := by
  intro evs
  induction evs with
  | nil => intro held _; rfl
  | cons e rest ih =>
      intro held hall
      have h0 : p e = false := hall e (List.mem_cons_self e rest)
      have h1 : ∀ x ∈ rest, p x = false := fun x hx =>
        hall x (List.mem_cons_of_mem e hx)
      simp [anyHeld, h0, ih _ h1]

theorem isOsIO_runThunk (t : PyThunk) :
    ∀ e ∈ runThunk t, isOsIO e = false := by
  intro e he
  cases h : t.raises <;> simp [runThunk, h] at he
  · subst he; rfl
  · rcases he with rfl | rfl <;> rfl

theorem isOsIO_drain_body (ts : List PyThunk) :
    ∀ e ∈ (ts.map runThunk).flatten, isOsIO e = false := by
  intro e he
  rcases List.mem_flatten.1 he with ⟨l, hl, hel⟩
  rcases List.mem_map.1 hl with ⟨t, _, rfl⟩
  exact isOsIO_runThunk t e hel

theorem anyHeld_invoke_tail (ts : List PyThunk) :
    anyHeld isInvoke ((ts.map runThunk).flatten ++ [Ev.clearQueue, Ev.release])
        true
      = !ts.isEmpty := by
  cases ts with
  | nil => rfl
  | cons t ts => cases h : t.raises <;> simp [runThunk, h, anyHeld, isInvoke]

theorem drain_invokeWhileLocked (s : TriggerState) :
    invokeWhileLocked (handle_read s RecvOutcome.ok).2.2
      = !s.thunks.isEmpty := by
  rw [invokeWhileLocked, drain_trace]
  show anyHeld isInvoke
    ((s.thunks.map runThunk).flatten ++ [Ev.clearQueue, Ev.release]) true
      = !s.thunks.isEmpty
  exact anyHeld_invoke_tail s.thunks

theorem drain_osIOWhileLocked (s : TriggerState) :
    osIOWhileLocked (handle_read s RecvOutcome.ok).2.2 = false := by
  rw [osIOWhileLocked, drain_trace]
  show anyHeld isOsIO
    ((s.thunks.map runThunk).flatten ++ [Ev.clearQueue, Ev.release]) true
      = false
  apply anyHeld_of_not_matching
  intro e he
  rcases List.mem_append.1 he with h | h
  · exact isOsIO_drain_body s.thunks e h
  · simp at h
    rcases h with rfl | rfl <;> rfl

theorem pull_osIOWhileLocked (s : TriggerState) (o : Option PyThunk) :
    osIOWhileLocked (pull_trigger s o).2 = false := by
  rcases o with _ | t
  · rfl
  · unfold pull_trigger
    cases h : pyTruthy (some t) <;> simp [h] <;> rfl

theorem pullMany_thunks (ts : List PyThunk) :
    ∀ s : TriggerState, (∀ t ∈ ts, t.truthy = true) →
      (pullMany s ts).thunks = s.thunks ++ ts := by
  induction ts with
  | nil => intro s _; simp [pullMany]
  | cons t ts ih =>
      intro s h
      have ht : t.truthy = true := h t (List.mem_cons_self t ts)
      have hrest : ∀ u ∈ ts, u.truthy = true := fun u hu =>
        h u (List.mem_cons_of_mem t hu)
      show (pullMany (pull_trigger s (some t)).1 ts).thunks = s.thunks ++ t :: ts
      rw [ih _ hrest]
      simp [pull_trigger, pyTruthy, ht]

/-! Helper lemmas about the loopback bind loop. -/

theorem bindLoop_none_iff (taken : Nat → Bool) :
    ∀ (fuel offset : Nat),
      bindLoop taken offset fuel = none ↔
        ∀ j < fuel, taken (MINPORT + (offset + 1 + j) % NPORTS) = true := by
  intro fuel
  induction fuel with
  | zero => intro offset; simp [bindLoop]
  | succ fuel ih =>
      intro offset
      by_cases h : taken (MINPORT + (offset + 1) % NPORTS) = true
      · rw [bindLoop]
        simp only [h, if_pos]
        rw [ih ((offset + 1) % NPORTS)]
        have hmod : ∀ j : Nat, ((offset + 1) % NPORTS + 1 + j) % NPORTS
            = (offset + 1 + (j + 1)) % NPORTS := by
          intro j; simp only [NPORTS]; omega
        constructor
        · intro hall j hj
          cases j with
          | zero => simpa using h
          | succ j =>
              have := hall j (by omega)
              rw [hmod j] at this
              simpa using this
        · intro hall j hj
          have := hall (j + 1) (by omega)
          rw [hmod j]
          simpa using this
      · rw [bindLoop]
        simp only [h, if_neg, if_false]
        constructor
        · intro hnone; cases hnone
        · intro hall
          exact absurd (by simpa using hall 0 (by omega)) h

theorem residue_coverage (offset i : Nat) (hi : i < NPORTS) :
    ∃ j < NPORTS, (offset + 1 + j) % NPORTS = i := by
  refine ⟨(i + NPORTS - (offset + 1) % NPORTS) % NPORTS, ?_, ?_⟩
  · exact Nat.mod_lt _ (by decide)
  · simp only [NPORTS] at hi ⊢
    omega

theorem bindLoop_some (taken : Nat → Bool) :
    ∀ (fuel offset off port : Nat),
      bindLoop taken offset fuel = some (off, port) →
        taken port = false ∧ ∃ i < NPORTS, port = MINPORT + i := by
  intro fuel
  induction fuel with
  | zero => intro offset off port h; cases h
  | succ fuel ih =>
      intro offset off port h
      rw [bindLoop] at h
      by_cases ht : taken (MINPORT + (offset + 1) % NPORTS) = true
      · rw [if_pos ht] at h
        exact ih _ _ _ h
      · rw [if_neg ht] at h
        cases h
        refine ⟨by simpa using ht, (offset + 1) % NPORTS, Nat.mod_lt _ (by decide), rfl⟩

/-! Claim theorems. -/

/-- C1: for every sequence of thunks appended via `pull_trigger` before a
drain (starting from an empty queue, each thunk truthy so the append takes
place), a single `handle_read` whose recv succeeds calls exactly those
thunks, in append (FIFO) order, and leaves `self.thunks` empty. -/
theorem pull_then_drain_fifo (s : TriggerState) (ts : List PyThunk)
    (h0 : s.thunks = []) (h1 : ∀ t ∈ ts, t.truthy = true) :
    invoked (handle_read (pullMany s ts) RecvOutcome.ok).2.2 = ts ∧
    (handle_read (pullMany s ts) RecvOutcome.ok).2.1.thunks = [] := by
  constructor
  · rw [drain_invoked, pullMany_thunks ts s h1, h0, List.nil_append]
  · exact drain_empties_queue _

/-- Witness for C1 at a concrete two-thunk sequence (the second one
raising). -/
theorem pull_then_drain_fifo_witness :
    invoked (handle_read
        (pullMany initState [⟨1, false, true⟩, ⟨2, true, true⟩])
        RecvOutcome.ok).2.2
      = [⟨1, false, true⟩, ⟨2, true, true⟩] ∧
    (handle_read (pullMany initState [⟨1, false, true⟩, ⟨2, true, true⟩])
        RecvOutcome.ok).2.1.thunks = [] :=
  pull_then_drain_fifo initState [⟨1, false, true⟩, ⟨2, true, true⟩] rfl
    (by decide)

/-- C2 (counterexample): with one queued thunk, the drain of `handle_read`
calls the thunk while `self.lock` is held, and the queue reset
(`self.thunks = []`) happens after the call, not before — there is no
swap-for-a-fresh-queue before invocation, refuting the claim that the lock
is never held across a thunk invocation. -/
theorem drain_runs_thunks_under_lock :
    invokeWhileLocked
        (handle_read { thunks := [⟨1, false, true⟩], pendingBytes := 1 }
          RecvOutcome.ok).2.2 = true ∧
    (handle_read { thunks := [⟨1, false, true⟩], pendingBytes := 1 }
        RecvOutcome.ok).2.2
      = [Ev.recvBytes, Ev.acquire, Ev.invoke ⟨1, false, true⟩,
         Ev.clearQueue, Ev.release] := by
  decide

/-- C2 (amended): during a drain `handle_read` acquires the lock, invokes
every queued thunk while holding it, then resets the queue to a fresh empty
list and releases the lock; the lock is held across every thunk invocation
(whenever the queue is non-empty) but never across the OS read (done before
acquiring) or the wakeup write (done outside the lock in `pull_trigger`). -/
theorem drain_lock_discipline (s : TriggerState) (o : Option PyThunk) :
    (handle_read s RecvOutcome.ok).2.2
      = [Ev.recvBytes, Ev.acquire] ++ (s.thunks.map runThunk).flatten
          ++ [Ev.clearQueue, Ev.release] ∧
    invokeWhileLocked (handle_read s RecvOutcome.ok).2.2
      = !s.thunks.isEmpty ∧
    osIOWhileLocked (handle_read s RecvOutcome.ok).2.2 = false ∧
    osIOWhileLocked (pull_trigger s o).2 = false :=
  ⟨drain_trace s, drain_invokeWhileLocked s, drain_osIOWhileLocked s,
    pull_osIOWhileLocked s o⟩

/-- C3 (code evidence): the loopback trigger's `close` — the inherited
dispatcher close, since the class defines none — never releases the
write-end socket `self.trigger`, neither on the first call nor on a second,
while the pipe variant's own `close` does release both fds exactly once and
is idempotent. -/
theorem loopback_close_leaves_write_end_open :
    (loopback_close loopbackInit).wClosed = false ∧
    (loopback_close (loopback_close loopbackInit)).wClosed = false ∧
    pipe_close (pipeInit 3 4)
      = ({ closed := true, fds := [], registered := false }, [3, 4]) ∧
    pipe_close (pipe_close (pipeInit 3 4)).1
      = ((pipe_close (pipeInit 3 4)).1, []) := by
  decide

/-- C4: a drain whose recv succeeds never lets an exception escape
`handle_read`; every queued thunk is called (in order, so thunks queued
after a raising one still run), and exactly the raising thunks are reported
to the diagnostic print. -/
theorem thunk_error_isolated (s : TriggerState) :
    (handle_read s RecvOutcome.ok).1 = none ∧
    invoked (handle_read s RecvOutcome.ok).2.2 = s.thunks ∧
    reported (handle_read s RecvOutcome.ok).2.2
      = s.thunks.filter fun t => t.raises :=
  ⟨drain_no_exc s, drain_invoked s, drain_reported s⟩

/-- C5 (counterexample): `pull_trigger` called with a thunk that is
provided but falsy does not append it — the queue stays empty and the trace
holds only the wakeup write, no lock acquire and no append — refuting the
claim that every provided thunk is appended under the lock. -/
theorem pull_falsy_thunk_not_appended :
    (pull_trigger initState (some ⟨3, false, false⟩)).1.thunks = [] ∧
    (pull_trigger initState (some ⟨3, false, false⟩)).2 = [Ev.writeByte] := by
  decide

/-- C5 (amended): for every call of `pull_trigger` with a truthy thunk, the
thunk is appended to the queue while holding the lock, the append comes
strictly before the wakeup write (the trace is exactly acquire, append,
release, write), the write happens outside the lock, and exactly one byte
is written. -/
theorem pull_truthy_appends_then_writes (s : TriggerState) (t : PyThunk)
    (h : t.truthy = true) :
    pull_trigger s (some t)
      = ({ thunks := s.thunks ++ [t], pendingBytes := s.pendingBytes + 1 },
         [Ev.acquire, Ev.append t, Ev.release, Ev.writeByte]) ∧
    appendWhileLocked (pull_trigger s (some t)).2 = true ∧
    osIOWhileLocked (pull_trigger s (some t)).2 = false ∧
    bytesWritten (pull_trigger s (some t)).2 = 1 := by
  have htr : pyTruthy (some t) = true := h
  refine ⟨?_, ?_, pull_osIOWhileLocked s (some t), ?_⟩
  · simp [pull_trigger, htr]
  · simp [pull_trigger, htr, appendWhileLocked, anyHeld, isAppend]
  · simp [pull_trigger, htr, bytesWritten]

/-- Witness for C5 (amended) at a concrete truthy thunk. -/
theorem pull_truthy_appends_then_writes_witness :
    pull_trigger initState (some ⟨1, false, true⟩)
      = ({ thunks := initState.thunks ++ [⟨1, false, true⟩],
           pendingBytes := initState.pendingBytes + 1 },
         [Ev.acquire, Ev.append ⟨1, false, true⟩, Ev.release, Ev.writeByte]) ∧
    appendWhileLocked (pull_trigger initState (some ⟨1, false, true⟩)).2
      = true ∧
    osIOWhileLocked (pull_trigger initState (some ⟨1, false, true⟩)).2
      = false ∧
    bytesWritten (pull_trigger initState (some ⟨1, false, true⟩)).2 = 1 :=
  pull_truthy_appends_then_writes initState ⟨1, false, true⟩ rfl

/-- C6 (counterexample): with 8193 wakeup bytes pending, one `handle_read`
leaves one byte unread — `self.recv(8192)` consumes at most 8192 bytes, so
the drain does not discard all currently available bytes for any number of
pending bytes. -/
theorem drain_leaves_bytes_beyond_8192 :
    (handle_read { thunks := [], pendingBytes := 8193 }
        RecvOutcome.ok).2.1.pendingBytes = 1 := by
  decide

/-- C6 (amended): each successful `handle_read` discards
`min pending 8192` bytes from the channel; in particular it discards all
currently available bytes whenever at most 8192 are pending, i.e. for up to
8192 `pull_trigger` calls since the last drain. -/
theorem drain_discards_min_8192 (s : TriggerState) :
    (handle_read s RecvOutcome.ok).2.1.pendingBytes
      = s.pendingBytes - min s.pendingBytes 8192 ∧
    (s.pendingBytes ≤ 8192 →
      (handle_read s RecvOutcome.ok).2.1.pendingBytes = 0) := by
  refine ⟨rfl, fun h => ?_⟩
  show s.pendingBytes - min s.pendingBytes 8192 = 0
  omega

/-- Witness for C6 (amended) at 5 pending bytes. -/
theorem drain_discards_min_8192_witness :
    (handle_read { thunks := [], pendingBytes := 5 }
        RecvOutcome.ok).2.1.pendingBytes = 5 - min 5 8192 ∧
    (handle_read { thunks := [], pendingBytes := 5 }
        RecvOutcome.ok).2.1.pendingBytes = 0 :=
  ⟨(drain_discards_min_8192 { thunks := [], pendingBytes := 5 }).1,
   (drain_discards_min_8192 { thunks := [], pendingBytes := 5 }).2
     (by decide)⟩

/-- C7 (counterexample): a read failure of a class other than
`socket.error` — the `OSError` that `os.read` raises in the pipe variant
when the channel is torn down mid-read — escapes `handle_read`, refuting
the claim that any read error is recovered in either variant. -/
theorem pipe_read_error_propagates :
    handle_read initState (RecvOutcome.fails Exc.osError)
      = (some Exc.osError, initState, [Ev.recvBytes]) := by
  decide

/-- C7 (amended): a read failure of class `socket.error` is recovered
locally by the `except socket.error: return` clause — `handle_read`
returns with no exception, the state untouched and no thunk run; an error
of any other class propagates. -/
theorem socket_error_recovered (s : TriggerState) :
    handle_read s (RecvOutcome.fails Exc.socketError)
      = (none, s, [Ev.recvBytes]) := rfl

/-- C8: the loopback bind loop raises its for-else
`RuntimeError('Cannot bind trigger!')` exactly when every one of the
`NPORTS` candidate ports `MINPORT .. MINPORT + NPORTS - 1` fails to bind —
whatever the starting `portoffset`, the loop tries the whole range — and a
successful bind lands on a free port of that range. -/
theorem bind_exhausts_iff_all_ports_taken (taken : Nat → Bool)
    (offset : Nat) :
    (loopback_bind taken offset = none ↔
      ∀ i < NPORTS, taken (MINPORT + i) = true) ∧
    ∀ off port, loopback_bind taken offset = some (off, port) →
      taken port = false ∧ ∃ i < NPORTS, port = MINPORT + i := by
  constructor
  · rw [loopback_bind, bindLoop_none_iff]
    constructor
    · intro hall i hi
      rcases residue_coverage offset i hi with ⟨j, hj, hje⟩
      have := hall j hj
      rwa [hje] at this
    · intro hall j _
      exact hall _ (Nat.mod_lt _ (by decide))
  · intro off port h
    exact bindLoop_some taken NPORTS offset off port h

/-- Witness for C8 with every port taken, starting at offset 0. -/
theorem bind_exhausts_iff_all_ports_taken_witness :
    (loopback_bind (fun _ => true) 0 = none ↔
      ∀ i < NPORTS, (fun _ : Nat => true) (MINPORT + i) = true) ∧
    ∀ off port, loopback_bind (fun _ => true) 0 = some (off, port) →
      (fun _ : Nat => true) port = false ∧
        ∃ i < NPORTS, port = MINPORT + i :=
  bind_exhausts_iff_all_ports_taken (fun _ => true) 0

/-- C9: `pull_trigger` with no thunk argument leaves the queue unchanged,
produces exactly the one-byte wakeup write, and after the next drain (from
a fresh trigger) no thunk has run and the queue length is 0. -/
theorem pull_none_no_work (s : TriggerState) :
    (pull_trigger s none).1.thunks = s.thunks ∧
    (pull_trigger s none).2 = [Ev.writeByte] ∧
    bytesWritten (pull_trigger s none).2 = 1 ∧
    (handle_read (pull_trigger initState none).1
        RecvOutcome.ok).2.1.thunks = [] ∧
    invoked (handle_read (pull_trigger initState none).1
        RecvOutcome.ok).2.2 = [] := by
  refine ⟨rfl, rfl, rfl, rfl, ?_⟩
  decide

/-- C10: `if thunk:` tests the argument for Python truthiness, not mere
presence — a provided thunk whose truth value is false is silently not
appended (no lock acquire, no append), while the wakeup byte is still
written. -/
theorem pull_tests_truthiness (s : TriggerState) (t : PyThunk)
    (h : t.truthy = false) :
    pull_trigger s (some t)
      = ({ s with pendingBytes := s.pendingBytes + 1 }, [Ev.writeByte]) := by
  have htr : pyTruthy (some t) = false := h
  simp [pull_trigger, htr]

/-- Witness for C10 at a concrete falsy callable. -/
theorem pull_tests_truthiness_witness :
    pull_trigger initState (some ⟨4, false, false⟩)
      = ({ initState with pendingBytes := initState.pendingBytes + 1 },
         [Ev.writeByte]) :=
  pull_tests_truthiness initState ⟨4, false, false⟩ rfl

end ZRPC
